import Mathlib

/-!
Verification of the VoiceGuard voice-analysis pipeline.

The development shallowly embeds the scoring, feature-extraction and audio
ingestion code of the repository.  Python floats are modelled as exact
rationals; the banker rounding performed by the Python builtin round is
modelled exactly on rationals.  Library calls with no algorithmic content in
this repository (librosa decoding, trimming, framing, numpy standard
deviation, which involves a real square root) are abstracted as explicit
oracle parameters; every branch, comparison and constant of the repository
code itself is embedded verbatim.
-/

namespace VoiceGuard

/-! ## Exact model of the Python builtin round (banker rounding) -/

/-- Round a rational to the nearest integer, ties to even, as the Python
builtin round does on the exact value. -/
def roundHalfEven (x : ℚ) : ℤ :=
  if x - (⌊x⌋ : ℚ) < 1/2 then ⌊x⌋
  else if x - (⌊x⌋ : ℚ) > 1/2 then ⌊x⌋ + 1
  else if Even ⌊x⌋ then ⌊x⌋ else ⌊x⌋ + 1

/-- Round a rational to k decimal digits, ties to even: the model of the
Python expression round(x, k). -/
def roundDec (k : ℕ) (x : ℚ) : ℚ :=
  ((roundHalfEven (x * 10 ^ k) : ℤ) : ℚ) / 10 ^ k

theorem roundHalfEven_mem (x : ℚ) :
    roundHalfEven x = ⌊x⌋ ∨ roundHalfEven x = ⌊x⌋ + 1 := by
  unfold roundHalfEven
  split_ifs <;> simp

theorem intCast_le_roundHalfEven (n : ℤ) (x : ℚ) (h : (n : ℚ) ≤ x) :
    n ≤ roundHalfEven x := by
  have hf : n ≤ ⌊x⌋ := Int.le_floor.mpr h
  rcases roundHalfEven_mem x with he | he <;> omega

theorem roundHalfEven_le_intCast (n : ℤ) (x : ℚ) (h : x ≤ (n : ℚ)) :
    roundHalfEven x ≤ n := by
  have hf : ⌊x⌋ ≤ n := by
    have := Int.floor_le_floor h
    simpa using this
  rcases roundHalfEven_mem x with he | he
  · omega
  · -- the +1 branch is taken only when x is strictly above its floor
    by_cases hxe : (⌊x⌋ : ℚ) = x
    · have hid : roundHalfEven x = ⌊x⌋ := by
        have h0 : x - (⌊x⌋ : ℚ) = 0 := by rw [hxe]; ring
        unfold roundHalfEven
        rw [h0]
        norm_num
      omega
    · have hlt : (⌊x⌋ : ℚ) < x := lt_of_le_of_ne (Int.floor_le x) hxe
      have : ⌊x⌋ < n := by
        by_contra hcon
        push_neg at hcon
        have : (n : ℚ) ≤ (⌊x⌋ : ℚ) := by exact_mod_cast hcon
        linarith
      omega

theorem roundDec_ge (k : ℕ) (n : ℤ) (x : ℚ) (h : (n : ℚ) / 10 ^ k ≤ x) :
    (n : ℚ) / 10 ^ k ≤ roundDec k x := by
  have hpow : (0 : ℚ) < 10 ^ k := by positivity
  have hx : (n : ℚ) ≤ x * 10 ^ k := by
    have := (div_le_iff₀ hpow).mp h
    linarith
  have := intCast_le_roundHalfEven n (x * 10 ^ k) hx
  unfold roundDec
  have : (n : ℚ) ≤ ((roundHalfEven (x * 10 ^ k) : ℤ) : ℚ) := by exact_mod_cast this
  exact (div_le_div_iff_of_pos_right hpow).mpr this

theorem roundDec_le (k : ℕ) (n : ℤ) (x : ℚ) (h : x ≤ (n : ℚ) / 10 ^ k) :
    roundDec k x ≤ (n : ℚ) / 10 ^ k := by
  have hpow : (0 : ℚ) < 10 ^ k := by positivity
  have hx : x * 10 ^ k ≤ (n : ℚ) := by
    have := (le_div_iff₀ hpow).mp h
    linarith
  have := roundHalfEven_le_intCast n (x * 10 ^ k) hx
  unfold roundDec
  have : ((roundHalfEven (x * 10 ^ k) : ℤ) : ℚ) ≤ (n : ℚ) := by exact_mod_cast this
  exact (div_le_div_iff_of_pos_right hpow).mpr this

/-! ## Scorer constants (app/services/scorer.py) -/

/-- Embeds THRESHOLD_PITCH_STD_LOW = 20.0 from scorer.py. -/
def THRESHOLD_PITCH_STD_LOW : ℚ := 20

/-- Embeds THRESHOLD_ZCR_LOW = 0.02 from scorer.py. -/
def THRESHOLD_ZCR_LOW : ℚ := 0.02

/-! ## The three anomaly signals -/

/-- Embeds IntelligenceEngine._compute_signal_acoustic in the fallback mode
where the classifier artifact is absent (the repository ships no
ml_assets/clf_acoustic.joblib, so _get_model returns None): the heuristic
min(1.0, spectral_flatness * 10). -/
def computeSignalAcousticFallback (spectral_flatness : ℚ) : ℚ :=
  min 1 (spectral_flatness * 10)

/-- Embeds IntelligenceEngine._compute_signal_temporal: 0.5 when
pitch_std is at most 0, otherwise max(0.0, 1.0 - pitch_std / 20). -/
def computeSignalTemporal (pitch_std : ℚ) : ℚ :=
  if pitch_std ≤ 0 then 0.5
  else max 0 (1 - pitch_std / THRESHOLD_PITCH_STD_LOW)

/-- Embeds IntelligenceEngine._compute_signal_imperfection: 1.0 when
zcr_mean is at most 0, otherwise max(0.0, 1.0 - zcr_mean / 0.02). -/
def computeSignalImperfection (zcr_mean : ℚ) : ℚ :=
  if zcr_mean ≤ 0 then 1
  else max 0 (1 - zcr_mean / THRESHOLD_ZCR_LOW)

/-! ## Fusion and explanation (IntelligenceEngine.analyze_voice, steps 2 to 5) -/

/-- Embeds the result dictionary of analyze_voice, including the rounded
debug sub-scores. -/
structure Verdict where
  classification : String
  confidence : ℚ
  risk_level : String
  language : String
  explanation : String
  score_acoustic : ℚ
  score_temporal : ℚ
  score_imperfection : ℚ
deriving DecidableEq, Repr

/-- Embeds the weighted average of analyze_voice step 2:
0.5 * acoustic + 0.3 * temporal + 0.2 * imperfection. -/
def fusedScore (sAcoustic sTemporal sImperfection : ℚ) : ℚ :=
  0.5 * sAcoustic + 0.3 * sTemporal + 0.2 * sImperfection

/-- Embeds the reasons list built by analyze_voice step 4 before the
final if/elif: one canned phrase per signal above its trigger threshold,
in the fixed order temporal, imperfection, acoustic. -/
def triggerReasons (sAcoustic sTemporal sImperfection : ℚ) : List String :=
  (if sTemporal > 0.6 then ["Unnatural pitch stability (robotic consistency)"] else []) ++
  (if sImperfection > 0.6 then ["Lack of natural background noise (digital silence)"] else []) ++
  (if sAcoustic > 0.7 then ["Acoustic model detected synthetic spectral artifacts"] else [])

/-- Embeds steps 2 to 5 of IntelligenceEngine.analyze_voice as a function of
the three already-computed signal values: fusion, classification, risk
banding, explanation assembly, confidence rounding and the debug block. -/
def analyzeFused (sAcoustic sTemporal sImperfection : ℚ) : Verdict :=
  let final_score := fusedScore sAcoustic sTemporal sImperfection
  let classification := if final_score > 0.65 then "AI-generated" else "Human-generated"
  let risk_level :=
    if final_score < 0.4 then "Low"
    else if final_score < 0.65 then "Medium"
    else "High"
  let reasons := triggerReasons sAcoustic sTemporal sImperfection
  let reasons :=
    if reasons = [] ∧ classification = "AI-generated" then
      ["Cumulative anomaly score exceeded threshold"]
    else if classification = "Human-generated" then
      reasons ++ ["Audio exhibits natural prosody and imperfections"]
    else reasons
  { classification := classification
    confidence :=
      roundDec 4 (if classification = "AI-generated" then final_score else 1 - final_score)
    risk_level := risk_level
    language := "Detected (Agnostic)"
    explanation := String.intercalate "; " reasons
    score_acoustic := roundDec 3 sAcoustic
    score_temporal := roundDec 3 sTemporal
    score_imperfection := roundDec 3 sImperfection }

/-! ## Dynamically typed view of analyze_voice (app/services/scorer.py)

The Python features argument is an untyped dictionary.  The scorer reads the
keys spectral_flatness, pitch_std and zcr_mean with numeric defaults; a
non-numeric value at one of these keys makes the corresponding comparison or
min call raise a TypeError, and analyze_voice itself installs no exception
handler, so the error escapes to the caller. -/

/-- Model of a Python value stored in the features dictionary: a float or a
string (any non-numeric value behaves like the string case here, raising
TypeError when compared against a number). -/
inductive PyVal where
  | num (q : ℚ)
  | str (s : String)
deriving DecidableEq, Repr

/-- Tests whether a dynamic value is numeric. -/
def PyVal.isNum : PyVal → Bool
  | num _ => true
  | str _ => false

/-- Model of the features dictionary as seen by the scorer in fallback mode:
only the three keys the signal computations read.  A missing key yields the
numeric default 0.0 via dict.get, so absence is subsumed by the num case. -/
structure FeaturesDyn where
  spectral_flatness : PyVal
  pitch_std : PyVal
  zcr_mean : PyVal
deriving DecidableEq, Repr

/-- Embeds _compute_signal_acoustic (fallback mode) on a dynamic value:
min(1.0, flatness * 10) raises TypeError when flatness is a string, because
the float-vs-str comparison inside min is unsupported. -/
def computeSignalAcousticDyn : PyVal → Except String ℚ
  | PyVal.num q => Except.ok (computeSignalAcousticFallback q)
  | PyVal.str _ => Except.error "TypeError"

/-- Embeds _compute_signal_temporal on a dynamic value: the comparison
pitch_std <= 0 raises TypeError when pitch_std is a string. -/
def computeSignalTemporalDyn : PyVal → Except String ℚ
  | PyVal.num q => Except.ok (computeSignalTemporal q)
  | PyVal.str _ => Except.error "TypeError"

/-- Embeds _compute_signal_imperfection on a dynamic value: the comparison
zcr_mean <= 0 raises TypeError when zcr_mean is a string. -/
def computeSignalImperfectionDyn : PyVal → Except String ℚ
  | PyVal.num q => Except.ok (computeSignalImperfection q)
  | PyVal.str _ => Except.error "TypeError"

/-- Embeds IntelligenceEngine.analyze_voice in fallback mode: the three
signals are computed in source order and fused; the function contains no
try/except, so an exception raised by any signal computation propagates. -/
def analyze_voice (f : FeaturesDyn) : Except String Verdict := do
  let sA ← computeSignalAcousticDyn f.spectral_flatness
  let sT ← computeSignalTemporalDyn f.pitch_std
  let sI ← computeSignalImperfectionDyn f.zcr_mean
  pure (analyzeFused sA sT sI)

/-! ## Feature extraction (app/services/feature_extract.py)

The numeric kernels with no algorithmic content in this repository are
abstracted: librosa framing results arrive as a FrameData record, and the
numpy standard deviation (a real square root, hence not rational) is an
explicit function parameter npStd.  The structure of extract_features, in
particular the dictionary keys in insertion order and the voiced-pitch
branch, is embedded verbatim. -/

/-- Model of the per-frame analysis results librosa produces for a signal:
the 13-row mfcc matrix, flatness frames, per-frame pitch (none models the
NaN of an unvoiced frame), zcr frames and rms frames. -/
structure FrameData where
  mfcc : List (List ℚ)
  flatnessFrames : List ℚ
  f0 : List (Option ℚ)
  zcrFrames : List ℚ
  rmsFrames : List ℚ

/-- Model of a value stored in the features dictionary by extract_features:
a scalar float or a list of floats. -/
inductive FeatVal where
  | scalar (q : ℚ)
  | vec (l : List ℚ)
deriving DecidableEq, Repr

/-- Embeds np.mean on a one-dimensional array. -/
def listMean (l : List ℚ) : ℚ := l.sum / l.length

/-- Embeds np.max on a nonempty one-dimensional array (0 on empty input,
which the source never reaches since the call is guarded by len > 0). -/
def listMax : List ℚ → ℚ
  | [] => 0
  | x :: xs => xs.foldl max x

/-- Embeds np.min on a nonempty one-dimensional array (0 on empty input,
which the source never reaches since the call is guarded by len > 0). -/
def listMin : List ℚ → ℚ
  | [] => 0
  | x :: xs => xs.foldl min x

/-- Embeds extract_features: builds the features dictionary as an ordered
association list with exactly the insertion order of the source.  The pitch
statistics come from the voiced frames (NaN entries removed); when no voiced
frame exists all three pitch fields are filled with 0.0 by the explicit
else branch, and no exception is raised. -/
def extract_features (npStd : List ℚ → ℚ) (d : FrameData) : List (String × FeatVal) :=
  let valid_f0 := d.f0.filterMap id
  [("mfcc_mean", FeatVal.vec (d.mfcc.map listMean)),
   ("mfcc_std", FeatVal.vec (d.mfcc.map npStd)),
   ("spectral_flatness", FeatVal.scalar (listMean d.flatnessFrames)),
   ("pitch_mean", FeatVal.scalar (if 0 < valid_f0.length then listMean valid_f0 else 0)),
   ("pitch_std", FeatVal.scalar (if 0 < valid_f0.length then npStd valid_f0 else 0)),
   ("pitch_range",
     FeatVal.scalar (if 0 < valid_f0.length then listMax valid_f0 - listMin valid_f0 else 0)),
   ("zcr_mean", FeatVal.scalar (listMean d.zcrFrames)),
   ("zcr_std", FeatVal.scalar (npStd d.zcrFrames)),
   ("energy_mean", FeatVal.scalar (listMean d.rmsFrames))]

/-- Embeds features.get(key, 0.0) for the scalar keys the scorer reads:
looks the key up in the association list and falls back to 0.0 when absent.
extract_features stores only scalars at these keys. -/
def featGetScalar (fs : List (String × FeatVal)) (k : String) : ℚ :=
  match fs.lookup k with
  | some (FeatVal.scalar q) => q
  | _ => 0

/-- Composition used by the endpoint after feature extraction: analyze_voice
in fallback mode on a well-typed features dictionary, reading the three
scalar keys with numeric defaults. -/
def analyzeVoiceOnFeatures (fs : List (String × FeatVal)) : Verdict :=
  analyzeFused
    (computeSignalAcousticFallback (featGetScalar fs "spectral_flatness"))
    (computeSignalTemporal (featGetScalar fs "pitch_std"))
    (computeSignalImperfection (featGetScalar fs "zcr_mean"))

/-! ## Audio ingestion (app/services/audio_loader.py, app/api/endpoints.py)

A byte blob is modelled by its byte size together with the outcome of the
two external librosa calls on it: the decode result of librosa.load (none
models a decode failure) and the sample list librosa.effects.trim returns
for the decoded samples.  The streamed size enforcement of the download
branch (content-length header plus the per-chunk counter) is collapsed into
a single comparison of the total byte size against the ceiling, performed
before any decode of the blob. -/

/-- Embeds TARGET_SAMPLE_RATE = 16000 from audio_loader.py. -/
def TARGET_SAMPLE_RATE : ℕ := 16000

/-- Embeds MAX_FILE_SIZE_BYTES = 10 * 1024 * 1024 from audio_loader.py. -/
def MAX_FILE_SIZE_BYTES : ℕ := 10 * 1024 * 1024

/-- Model of an audio blob: its byte size and the externally determined
decode and trim outcomes for its content. -/
structure AudioBytes where
  size : ℕ
  decodeResult : Option (List ℚ)
  trimResult : List ℚ
deriving DecidableEq, Repr

/-- Embeds the AudioProcessingError cases load_audio_from_path and
download_and_load_audio can raise. -/
inductive LoadError where
  | corrupted
  | empty
  | tooShort
  | tooLarge
deriving DecidableEq, Repr

/-- Embeds load_audio_from_path: decode via librosa.load (failure raises
the corrupted error), reject an empty decode, trim silence, and reject the
result when the post-trim length is below 0.5 seconds at the target rate. -/
def load_audio_from_path (b : AudioBytes) : Except LoadError (List ℚ × ℕ) :=
  match b.decodeResult with
  | none => Except.error LoadError.corrupted
  | some y =>
    if y.length = 0 then Except.error LoadError.empty
    else if 2 * b.trimResult.length < TARGET_SAMPLE_RATE then Except.error LoadError.tooShort
    else Except.ok (b.trimResult, TARGET_SAMPLE_RATE)

/-- Embeds the URL branch of download_and_load_audio: the downloaded byte
size is checked against MAX_FILE_SIZE_BYTES (content-length header and
per-chunk counter, collapsed into one comparison) before the blob is handed
to load_audio_from_path, hence before any decode. -/
def download_and_load_audio (b : AudioBytes) : Except LoadError (List ℚ × ℕ) :=
  if b.size > MAX_FILE_SIZE_BYTES then Except.error LoadError.tooLarge
  else load_audio_from_path b

/-- Embeds the failures analyze_audio_endpoint maps to HTTP responses:
AudioProcessingError becomes a 400 with the loader detail, any exception in
the base64 branch becomes a 400 invalid-base64 response, and a request with
neither input field becomes a 422. -/
inductive ApiFailure where
  | badAudio (e : LoadError)
  | invalidBase64
  | missingInput
deriving DecidableEq, Repr

/-- Model of the request body: at most one of the two optional audio
sources, each already resolved to the blob it denotes (for audio_base64 the
decoded bytes, for audio_url the bytes the URL serves). -/
structure VoiceRequest where
  audio_base64 : Option AudioBytes
  audio_url : Option AudioBytes

/-- Oracle bundling the external numeric kernels the pipeline applies to a
sample list: the librosa framing analysis and the numpy standard
deviation. -/
structure LibrosaOracle where
  frames : List ℚ → FrameData
  npStd : List ℚ → ℚ

/-- Embeds analyze_audio_endpoint: the base64 branch writes the decoded
bytes to a temporary file and calls librosa.load on it directly, with no
size check, no emptiness check, no trimming and no minimum-duration check
(any exception there becomes the invalid-base64 failure); the URL branch
goes through download_and_load_audio; then features are extracted and the
verdict computed. -/
def analyze_audio_endpoint (L : LibrosaOracle) (req : VoiceRequest) :
    Except ApiFailure Verdict :=
  match req.audio_base64 with
  | some b =>
    match b.decodeResult with
    | none => Except.error ApiFailure.invalidBase64
    | some y => Except.ok (analyzeVoiceOnFeatures (extract_features L.npStd (L.frames y)))
  | none =>
    match req.audio_url with
    | some b =>
      match download_and_load_audio b with
      | Except.error e => Except.error (ApiFailure.badAudio e)
      | Except.ok (y, _) =>
          Except.ok (analyzeVoiceOnFeatures (extract_features L.npStd (L.frames y)))
    | none => Except.error ApiFailure.missingInput

/-! ## Concrete instances used to evaluate the pipeline at specific inputs -/

/-- FrameData of a signal with no frames at all. -/
def emptyFrameData : FrameData :=
  { mfcc := [], flatnessFrames := [], f0 := [], zcrFrames := [], rmsFrames := [] }

/-- FrameData whose single pitch frame is unvoiced (a NaN in the source),
so no voiced pitch exists at all. -/
def noPitchFrameData : FrameData :=
  { mfcc := List.replicate 13 [], flatnessFrames := [], f0 := [none],
    zcrFrames := [], rmsFrames := [] }

/-- Degenerate but fully concrete oracle for evaluating the endpoint. -/
def constOracle : LibrosaOracle :=
  { frames := fun _ => emptyFrameData, npStd := fun _ => 0 }

/-- A tiny blob reaching the base64 branch: it decodes to a single sample,
far below the half-second floor of 8000 samples at 16 kHz. -/
def shortBase64Blob : AudioBytes :=
  { size := 100, decodeResult := some [0], trimResult := [] }

/-- An oversized blob (one byte above the 10 MB ceiling) that decodes
fine. -/
def bigBase64Blob : AudioBytes :=
  { size := MAX_FILE_SIZE_BYTES + 1, decodeResult := some [0], trimResult := [] }

/-- The same oversized blob with a failing decode. -/
def bigCorruptBlob : AudioBytes :=
  { size := MAX_FILE_SIZE_BYTES + 1, decodeResult := none, trimResult := [] }

/-! ## Helper lemmas about analyzeFused -/

theorem analyzeFused_classification (sA sT sI : ℚ) :
    (analyzeFused sA sT sI).classification =
      if fusedScore sA sT sI > 0.65 then "AI-generated" else "Human-generated" := rfl

theorem analyzeFused_risk (sA sT sI : ℚ) :
    (analyzeFused sA sT sI).risk_level =
      if fusedScore sA sT sI < 0.4 then "Low"
      else if fusedScore sA sT sI < 0.65 then "Medium"
      else "High" := rfl

theorem analyzeFused_confidence (sA sT sI : ℚ) :
    (analyzeFused sA sT sI).confidence =
      roundDec 4 (if (analyzeFused sA sT sI).classification = "AI-generated"
        then fusedScore sA sT sI else 1 - fusedScore sA sT sI) := rfl

theorem analyzeFused_explanation (sA sT sI : ℚ) :
    (analyzeFused sA sT sI).explanation =
      String.intercalate "; "
        (if triggerReasons sA sT sI = [] ∧ (analyzeFused sA sT sI).classification = "AI-generated"
         then ["Cumulative anomaly score exceeded threshold"]
         else if (analyzeFused sA sT sI).classification = "Human-generated"
         then triggerReasons sA sT sI ++ ["Audio exhibits natural prosody and imperfections"]
         else triggerReasons sA sT sI) := rfl

/-! ## C3: the temporal signal as a function of pitch standard deviation -/

/-- C3 counterexample: the claim states the temporal signal equals exactly
1.0 at pitch standard deviation 0, but the source branch pitch_std <= 0
returns 0.5 there (the same value as the no-voiced-pitch case, since the
extractor encodes that case as pitch_std = 0.0). -/
theorem C3_counterexample :
    computeSignalTemporal 0 = 0.5 ∧ computeSignalTemporal 0 ≠ 1 := by
  constructor <;> norm_num [computeSignalTemporal]

/-- C3 amended: the temporal signal equals 0.5 at std = 0 (this single value
encodes the no-voiced-pitch case, which the extractor maps to std = 0.0),
equals 0 for std at or above the threshold 20, equals the linear
interpolation 1 - std / 20 for std in (0, 20], and is non-increasing on
(0, ∞); moreover with no voiced pitch the extracted pitch_std is 0 and the
resulting signal is 0.5. -/
theorem C3_theorem :
    computeSignalTemporal 0 = 0.5 ∧
    (∀ s : ℚ, THRESHOLD_PITCH_STD_LOW ≤ s → computeSignalTemporal s = 0) ∧
    (∀ s : ℚ, 0 < s → s ≤ THRESHOLD_PITCH_STD_LOW →
      computeSignalTemporal s = 1 - s / THRESHOLD_PITCH_STD_LOW) ∧
    (∀ s₁ s₂ : ℚ, 0 < s₁ → s₁ ≤ s₂ →
      computeSignalTemporal s₂ ≤ computeSignalTemporal s₁) ∧
    (∀ (npStd : List ℚ → ℚ) (d : FrameData), d.f0.filterMap id = [] →
      featGetScalar (extract_features npStd d) "pitch_std" = 0 ∧
      computeSignalTemporal (featGetScalar (extract_features npStd d) "pitch_std") = 0.5) := by
  refine ⟨by norm_num [computeSignalTemporal], ?_, ?_, ?_, ?_⟩
  · intro s hs
    have h20 : (0 : ℚ) < 20 := by norm_num
    rw [THRESHOLD_PITCH_STD_LOW] at hs
    rw [computeSignalTemporal, if_neg (by linarith), THRESHOLD_PITCH_STD_LOW]
    have : 1 - s / 20 ≤ 0 := by
      rw [sub_nonpos, le_div_iff₀ h20]
      linarith
    exact max_eq_left this
  · intro s hs hsT
    rw [THRESHOLD_PITCH_STD_LOW] at hsT
    rw [computeSignalTemporal, if_neg (by linarith), THRESHOLD_PITCH_STD_LOW]
    have : (0 : ℚ) ≤ 1 - s / 20 := by
      rw [sub_nonneg, div_le_one (by norm_num)]
      linarith
    exact max_eq_right this
  · intro s₁ s₂ h1 h12
    rw [computeSignalTemporal, computeSignalTemporal,
      if_neg (by linarith), if_neg (by linarith)]
    refine max_le_max le_rfl ?_
    have : s₁ / THRESHOLD_PITCH_STD_LOW ≤ s₂ / THRESHOLD_PITCH_STD_LOW :=
      (div_le_div_iff_of_pos_right
        (by norm_num [THRESHOLD_PITCH_STD_LOW] : (0:ℚ) < THRESHOLD_PITCH_STD_LOW)).mpr h12
    linarith
  · intro npStd d h
    have hp : featGetScalar (extract_features npStd d) "pitch_std" = 0 := by
      simp only [extract_features, featGetScalar, h]
      rfl
    exact ⟨hp, by rw [hp]; norm_num [computeSignalTemporal]⟩

/-- C3 witness: the amended statement evaluated at concrete inputs. -/
theorem C3_witness :
    computeSignalTemporal 25 = 0 ∧
    computeSignalTemporal 10 = 1 - 10 / THRESHOLD_PITCH_STD_LOW ∧
    computeSignalTemporal 15 ≤ computeSignalTemporal 5 ∧
    featGetScalar (extract_features (fun _ => 0) noPitchFrameData) "pitch_std" = 0 :=
  ⟨C3_theorem.2.1 25 (by norm_num [THRESHOLD_PITCH_STD_LOW]),
   C3_theorem.2.2.1 10 (by norm_num) (by norm_num [THRESHOLD_PITCH_STD_LOW]),
   C3_theorem.2.2.2.1 5 15 (by norm_num) (by norm_num),
   (C3_theorem.2.2.2.2 (fun _ => 0) noPitchFrameData (by simp [noPitchFrameData])).1⟩

/-! ## C8: the imperfection signal as a function of zero-crossing-rate mean -/

/-- C8 confirmed: the imperfection signal equals exactly 1.0 at ZCR = 0,
equals exactly 0 for every ZCR at or above the threshold 0.02, follows the
linear interpolation 1 - ZCR / 0.02 on [0, 0.02], and is non-increasing
there. -/
theorem C8_theorem :
    computeSignalImperfection 0 = 1 ∧
    (∀ z : ℚ, THRESHOLD_ZCR_LOW ≤ z → computeSignalImperfection z = 0) ∧
    (∀ z : ℚ, 0 ≤ z → z ≤ THRESHOLD_ZCR_LOW →
      computeSignalImperfection z = 1 - z / THRESHOLD_ZCR_LOW) ∧
    (∀ z₁ z₂ : ℚ, 0 ≤ z₁ → z₁ ≤ z₂ → z₂ ≤ THRESHOLD_ZCR_LOW →
      computeSignalImperfection z₂ ≤ computeSignalImperfection z₁) := by
  have hT : THRESHOLD_ZCR_LOW = 1/50 := by norm_num [THRESHOLD_ZCR_LOW]
  refine ⟨by norm_num [computeSignalImperfection], ?_, ?_, ?_⟩
  · intro z hz
    rw [hT] at hz
    rw [computeSignalImperfection, if_neg (by linarith), hT]
    have : 1 - z / (1/50) ≤ 0 := by
      rw [sub_nonpos, le_div_iff₀ (by norm_num : (0:ℚ) < 1/50)]
      linarith
    exact max_eq_left this
  · intro z hz hzT
    rw [hT] at hzT
    rcases eq_or_lt_of_le hz with hz0 | hz0
    · rw [← hz0]
      norm_num [computeSignalImperfection]
    · rw [computeSignalImperfection, if_neg (by linarith), hT]
      have : (0 : ℚ) ≤ 1 - z / (1/50) := by
        rw [sub_nonneg, div_le_one (by norm_num : (0:ℚ) < 1/50)]
        linarith
      exact max_eq_right this
  · intro z₁ z₂ h1 h12 h2T
    rcases eq_or_lt_of_le h1 with hz0 | hz0
    · rw [← hz0]
      have h0 : computeSignalImperfection 0 = 1 := by norm_num [computeSignalImperfection]
      rw [h0, computeSignalImperfection]
      split_ifs with h
      · exact le_rfl
      · rw [hT]
        have : 1 - z₂ / (1/50) ≤ 1 := by
          have : (0:ℚ) ≤ z₂ / (1/50) := div_nonneg (by linarith) (by norm_num)
          linarith
        exact max_le (by norm_num) this
    · rw [computeSignalImperfection, computeSignalImperfection,
        if_neg (by linarith), if_neg (by linarith)]
      refine max_le_max le_rfl ?_
      have : z₁ / THRESHOLD_ZCR_LOW ≤ z₂ / THRESHOLD_ZCR_LOW :=
        (div_le_div_iff_of_pos_right
          (by norm_num [THRESHOLD_ZCR_LOW] : (0:ℚ) < THRESHOLD_ZCR_LOW)).mpr h12
      linarith

/-- C8 witness: the confirmed statement evaluated at concrete inputs. -/
theorem C8_witness :
    computeSignalImperfection (1/25) = 0 ∧
    computeSignalImperfection (1/100) = 1 - (1/100) / THRESHOLD_ZCR_LOW ∧
    computeSignalImperfection (1/60) ≤ computeSignalImperfection (1/200) :=
  ⟨C8_theorem.2.1 (1/25) (by norm_num [THRESHOLD_ZCR_LOW]),
   C8_theorem.2.2.1 (1/100) (by norm_num) (by norm_num [THRESHOLD_ZCR_LOW]),
   C8_theorem.2.2.2 (1/200) (1/60) (by norm_num) (by norm_num)
     (by norm_num [THRESHOLD_ZCR_LOW])⟩

/-! ## C1: classification cutoff and risk banding -/

/-- C1 counterexample: at the fused score exactly 0.65 (signals 1, 0.5, 0)
the source comparison final_score > 0.65 is false, so the classification is
Human-generated, not AI-generated as the claim states; the risk level is
High there as claimed. -/
theorem C1_counterexample :
    fusedScore 1 0.5 0 = 0.65 ∧
    (analyzeFused 1 0.5 0).classification = "Human-generated" ∧
    (analyzeFused 1 0.5 0).classification ≠ "AI-generated" ∧
    (analyzeFused 1 0.5 0).risk_level = "High" := by
  have hs : fusedScore 1 0.5 0 = 0.65 := by norm_num [fusedScore]
  refine ⟨hs, ?_, ?_, ?_⟩
  · rw [analyzeFused_classification, if_neg (by rw [hs]; norm_num)]
  · rw [analyzeFused_classification, if_neg (by rw [hs]; norm_num)]
    decide
  · rw [analyzeFused_risk, if_neg (by rw [hs]; norm_num), if_neg (by rw [hs]; norm_num)]

/-- C1 amended: the classification is AI-generated exactly when the fused
score is strictly greater than 0.65 (so at exactly 0.65 it is
Human-generated), and the risk bands are Low exactly below 0.4, Medium
exactly on [0.4, 0.65), High exactly at or above 0.65. -/
theorem C1_theorem (sA sT sI : ℚ) :
    ((analyzeFused sA sT sI).classification = "AI-generated" ↔
      fusedScore sA sT sI > 0.65) ∧
    ((analyzeFused sA sT sI).classification = "Human-generated" ↔
      fusedScore sA sT sI ≤ 0.65) ∧
    ((analyzeFused sA sT sI).risk_level = "Low" ↔ fusedScore sA sT sI < 0.4) ∧
    ((analyzeFused sA sT sI).risk_level = "Medium" ↔
      0.4 ≤ fusedScore sA sT sI ∧ fusedScore sA sT sI < 0.65) ∧
    ((analyzeFused sA sT sI).risk_level = "High" ↔ 0.65 ≤ fusedScore sA sT sI) := by
  refine ⟨?_, ?_, ?_, ?_, ?_⟩
  · rw [analyzeFused_classification]
    split_ifs with h
    · exact iff_of_true rfl h
    · exact iff_of_false (by decide) h
  · rw [analyzeFused_classification]
    split_ifs with h
    · exact iff_of_false (by decide) (not_le.mpr h)
    · exact iff_of_true rfl (not_lt.mp h)
  · rw [analyzeFused_risk]
    split_ifs with h1 h2
    · exact iff_of_true rfl h1
    · exact iff_of_false (by decide) h1
    · exact iff_of_false (by decide) h1
  · rw [analyzeFused_risk]
    split_ifs with h1 h2
    · exact iff_of_false (by decide) (by rintro ⟨ha, -⟩; linarith)
    · exact iff_of_true rfl ⟨not_lt.mp h1, h2⟩
    · exact iff_of_false (by decide) (by rintro ⟨-, hb⟩; exact h2 hb)
  · rw [analyzeFused_risk]
    split_ifs with h1 h2
    · exact iff_of_false (by decide) (by intro hb; linarith)
    · exact iff_of_false (by decide) (by intro hb; linarith)
    · exact iff_of_true rfl (not_lt.mp h2)

/-! ## C4: reported confidence versus the fused score -/

/-- C4 counterexample: with signals (0.00002, 0, 0) the fused score is
0.00001, the classification is Human-generated, and 1 - score = 0.99999,
yet the reported confidence is round(0.99999, 4) = 1.0, not 1 - score: the
source rounds the confidence to four decimals before reporting it. -/
theorem C4_counterexample :
    (analyzeFused (1/50000) 0 0).classification = "Human-generated" ∧
    (analyzeFused (1/50000) 0 0).confidence = 1 ∧
    1 - fusedScore (1/50000) 0 0 ≠ 1 := by
  have hs : fusedScore (1/50000) 0 0 = 1/100000 := by norm_num [fusedScore]
  have hc : (analyzeFused (1/50000) 0 0).classification = "Human-generated" := by
    rw [analyzeFused_classification, if_neg (by rw [hs]; norm_num)]
  refine ⟨hc, ?_, by rw [hs]; norm_num⟩
  rw [analyzeFused_confidence, hc, if_neg (by decide), hs]
  norm_num [roundDec, roundHalfEven]

/-- C4 amended: for every fused score s in [0,1] the reported confidence is
s rounded to four decimal digits (ties to even) when the classification is
AI-generated, and 1 - s so rounded when it is Human-generated; the reported
confidence always lies in [0,1]. -/
theorem C4_theorem (sA sT sI : ℚ)
    (h0 : 0 ≤ fusedScore sA sT sI) (h1 : fusedScore sA sT sI ≤ 1) :
    ((analyzeFused sA sT sI).classification = "AI-generated" →
      (analyzeFused sA sT sI).confidence = roundDec 4 (fusedScore sA sT sI)) ∧
    ((analyzeFused sA sT sI).classification = "Human-generated" →
      (analyzeFused sA sT sI).confidence = roundDec 4 (1 - fusedScore sA sT sI)) ∧
    0 ≤ (analyzeFused sA sT sI).confidence ∧ (analyzeFused sA sT sI).confidence ≤ 1 := by
  have key : ∀ x : ℚ, 0 ≤ x → x ≤ 1 → 0 ≤ roundDec 4 x ∧ roundDec 4 x ≤ 1 := by
    intro x hx0 hx1
    constructor
    · have h := roundDec_ge 4 0 x (by norm_num; exact hx0)
      simpa using h
    · have h := roundDec_le 4 10000 x (by norm_num; exact hx1)
      norm_num at h
      exact h
  rcases le_or_lt (fusedScore sA sT sI) 0.65 with hle | hgt
  · have hc : (analyzeFused sA sT sI).classification = "Human-generated" := by
      rw [analyzeFused_classification, if_neg (not_lt.mpr hle)]
    have hconf : (analyzeFused sA sT sI).confidence =
        roundDec 4 (1 - fusedScore sA sT sI) := by
      rw [analyzeFused_confidence, hc, if_neg (by decide)]
    refine ⟨?_, fun _ => hconf, ?_, ?_⟩
    · intro hca
      rw [hc] at hca
      exact absurd hca (by decide)
    · rw [hconf]
      exact (key _ (by linarith) (by linarith)).1
    · rw [hconf]
      exact (key _ (by linarith) (by linarith)).2
  · have hc : (analyzeFused sA sT sI).classification = "AI-generated" := by
      rw [analyzeFused_classification, if_pos hgt]
    have hconf : (analyzeFused sA sT sI).confidence =
        roundDec 4 (fusedScore sA sT sI) := by
      rw [analyzeFused_confidence, hc, if_pos rfl]
    refine ⟨fun _ => hconf, ?_, ?_, ?_⟩
    · intro hca
      rw [hc] at hca
      exact absurd hca (by decide)
    · rw [hconf]
      exact (key _ h0 h1).1
    · rw [hconf]
      exact (key _ h0 h1).2

/-- C4 witness: the amended statement evaluated at the concrete signals
(1, 1, 1), whose fused score is 1. -/
theorem C4_witness :
    0 ≤ fusedScore 1 1 1 ∧ fusedScore 1 1 1 ≤ 1 ∧
    0 ≤ (analyzeFused 1 1 1).confidence ∧ (analyzeFused 1 1 1).confidence ≤ 1 :=
  ⟨by norm_num [fusedScore], by norm_num [fusedScore],
   (C4_theorem 1 1 1 (by norm_num [fusedScore]) (by norm_num [fusedScore])).2.2⟩

/-! ## C5: explanation of a Human-generated verdict -/

/-- C5 counterexample: with signals (0.2, 0.7, 0) the verdict is
Human-generated, the temporal signal 0.7 exceeds its trigger 0.6, and the
emitted explanation contains the temporal trigger phrase followed by the
generic naturalness phrase: the source appends the generic phrase to the
already collected trigger phrases instead of suppressing them. -/
theorem C5_counterexample :
    (analyzeFused 0.2 0.7 0).classification = "Human-generated" ∧
    (0.7 : ℚ) > 0.6 ∧
    (analyzeFused 0.2 0.7 0).explanation =
      "Unnatural pitch stability (robotic consistency); Audio exhibits natural prosody and imperfections" ∧
    (analyzeFused 0.2 0.7 0).explanation ≠
      "Audio exhibits natural prosody and imperfections" := by
  have hs : fusedScore 0.2 0.7 0 = 0.31 := by norm_num [fusedScore]
  have hc : (analyzeFused 0.2 0.7 0).classification = "Human-generated" := by
    rw [analyzeFused_classification, if_neg (by rw [hs]; norm_num)]
  have ht : triggerReasons 0.2 0.7 0 =
      ["Unnatural pitch stability (robotic consistency)"] := by
    rw [triggerReasons, if_pos (by norm_num), if_neg (by norm_num), if_neg (by norm_num)]
    rfl
  have he : (analyzeFused 0.2 0.7 0).explanation =
      "Unnatural pitch stability (robotic consistency); Audio exhibits natural prosody and imperfections" := by
    rw [analyzeFused_explanation, ht, hc]
    rw [if_neg (by decide), if_pos rfl]
    rfl
  exact ⟨hc, by norm_num, he, by rw [he]; decide⟩

/-- C5 amended: whenever the classification is Human-generated the emitted
explanation is the semicolon-joined concatenation of the per-signal trigger
phrases (one per signal above its threshold, in the fixed order temporal,
imperfection, acoustic) followed by the generic naturalness phrase; it
consists of the generic phrase alone only when no signal exceeds its
trigger. -/
theorem C5_theorem (sA sT sI : ℚ)
    (h : (analyzeFused sA sT sI).classification = "Human-generated") :
    (analyzeFused sA sT sI).explanation =
      String.intercalate "; "
        (triggerReasons sA sT sI ++ ["Audio exhibits natural prosody and imperfections"]) := by
  rw [analyzeFused_explanation, h]
  rw [if_neg ?hne, if_pos rfl]
  case hne =>
    rintro ⟨-, hcontra⟩
    exact absurd hcontra (by decide)

/-- C5 witness: the amended statement at signals (0, 0, 0), a
Human-generated verdict with no triggered signal. -/
theorem C5_witness :
    (analyzeFused 0 0 0).explanation =
      String.intercalate "; "
        (triggerReasons 0 0 0 ++ ["Audio exhibits natural prosody and imperfections"]) :=
  C5_theorem 0 0 0 (by
    rw [analyzeFused_classification, if_neg (by norm_num [fusedScore])])

/-! ## C10: lower bounds on the reported confidence -/

/-- C10 counterexample: at signals (1, 0.5, 0.0002), all in [0,1], the
fused score is 0.65004, the classification is AI-generated, and the
reported confidence is round(0.65004, 4) = 0.65 exactly: it is not above
0.65 as the claim states, because the source rounds the confidence to four
decimals. -/
theorem C10_counterexample :
    (analyzeFused 1 0.5 0.0002).classification = "AI-generated" ∧
    (analyzeFused 1 0.5 0.0002).confidence = 0.65 ∧
    ¬ (analyzeFused 1 0.5 0.0002).confidence > 0.65 := by
  have hs : fusedScore 1 0.5 0.0002 = 13/20 + 1/25000 := by norm_num [fusedScore]
  have hc : (analyzeFused 1 0.5 0.0002).classification = "AI-generated" := by
    rw [analyzeFused_classification, if_pos (by rw [hs]; norm_num)]
  have hconf : (analyzeFused 1 0.5 0.0002).confidence = 0.65 := by
    rw [analyzeFused_confidence, hc, if_pos rfl, hs]
    norm_num [roundDec, roundHalfEven]
  exact ⟨hc, hconf, by rw [hconf]; norm_num⟩

/-- C10 amended: for signals in [0,1] the reported confidence is always at
least 0.35; an AI-generated classification implies confidence at least 0.65
(equality is reachable through rounding, so not strictly above), and a
Human-generated classification implies confidence at least 0.35. -/
theorem C10_theorem (sA sT sI : ℚ)
    (_hA0 : 0 ≤ sA) (_hA1 : sA ≤ 1) (_hT0 : 0 ≤ sT) (_hT1 : sT ≤ 1)
    (_hI0 : 0 ≤ sI) (_hI1 : sI ≤ 1) :
    (7/20 : ℚ) ≤ (analyzeFused sA sT sI).confidence ∧
    ((analyzeFused sA sT sI).classification = "AI-generated" →
      (13/20 : ℚ) ≤ (analyzeFused sA sT sI).confidence) ∧
    ((analyzeFused sA sT sI).classification = "Human-generated" →
      (7/20 : ℚ) ≤ (analyzeFused sA sT sI).confidence) := by
  rcases le_or_lt (fusedScore sA sT sI) 0.65 with hle | hgt
  · have hc : (analyzeFused sA sT sI).classification = "Human-generated" := by
      rw [analyzeFused_classification, if_neg (not_lt.mpr hle)]
    have hconf : (analyzeFused sA sT sI).confidence =
        roundDec 4 (1 - fusedScore sA sT sI) := by
      rw [analyzeFused_confidence, hc, if_neg (by decide)]
    have hlo : (7/20 : ℚ) ≤ roundDec 4 (1 - fusedScore sA sT sI) := by
      have h := roundDec_ge 4 3500 (1 - fusedScore sA sT sI) (by push_cast; norm_num; linarith)
      calc (7/20 : ℚ) = ((3500 : ℤ) : ℚ) / 10 ^ 4 := by norm_num
        _ ≤ _ := h
    refine ⟨by rw [hconf]; exact hlo, ?_, fun _ => by rw [hconf]; exact hlo⟩
    intro hca
    rw [hc] at hca
    exact absurd hca (by decide)
  · have hc : (analyzeFused sA sT sI).classification = "AI-generated" := by
      rw [analyzeFused_classification, if_pos hgt]
    have hconf : (analyzeFused sA sT sI).confidence =
        roundDec 4 (fusedScore sA sT sI) := by
      rw [analyzeFused_confidence, hc, if_pos rfl]
    have hhi : (13/20 : ℚ) ≤ roundDec 4 (fusedScore sA sT sI) := by
      have h := roundDec_ge 4 6500 (fusedScore sA sT sI) (by push_cast; norm_num; linarith)
      calc (13/20 : ℚ) = ((6500 : ℤ) : ℚ) / 10 ^ 4 := by norm_num
        _ ≤ _ := h
    refine ⟨by rw [hconf]; linarith, fun _ => by rw [hconf]; exact hhi, ?_⟩
    intro hca
    rw [hc] at hca
    exact absurd hca (by decide)

/-- C10 witness: the amended statement at the concrete signals (1, 1, 1). -/
theorem C10_witness :
    (7/20 : ℚ) ≤ (analyzeFused 1 1 1).confidence :=
  (C10_theorem 1 1 1 (by norm_num) (by norm_num) (by norm_num) (by norm_num)
    (by norm_num) (by norm_num)).1

/-! ## C2: exception behaviour of analyze_voice -/

/-- C2 counterexample: a features mapping whose pitch_std value is a string
makes the comparison pitch_std <= 0 inside the temporal signal raise a
TypeError; analyze_voice has no exception handler, so the error propagates
to the caller instead of being replaced by any fallback verdict. -/
theorem C2_counterexample :
    analyze_voice
      { spectral_flatness := PyVal.num 0, pitch_std := PyVal.str "NaN",
        zcr_mean := PyVal.num 0 } = Except.error "TypeError" := rfl

/-- C2 amended: analyze_voice catches exceptions only inside the ML branch
of the acoustic signal (replacing that one signal by 0.5); in fallback mode
it is total exactly on numerically valued feature mappings, where it
returns the fused verdict, and an ill-typed value at any of the three keys
it reads makes the raised TypeError propagate to the caller, with no
fallback verdict produced. -/
theorem C2_theorem (f : FeaturesDyn) :
    (∀ qa qt qi,
      f = { spectral_flatness := PyVal.num qa, pitch_std := PyVal.num qt,
            zcr_mean := PyVal.num qi } →
      analyze_voice f = Except.ok (analyzeFused (computeSignalAcousticFallback qa)
        (computeSignalTemporal qt) (computeSignalImperfection qi))) ∧
    ((f.spectral_flatness.isNum = false ∨ f.pitch_std.isNum = false ∨
        f.zcr_mean.isNum = false) →
      analyze_voice f = Except.error "TypeError") := by
  obtain ⟨fa, ft, fi⟩ := f
  constructor
  · rintro qa qt qi heq
    cases heq
    rfl
  · rintro (hbad | hbad | hbad) <;>
    · cases fa <;> cases ft <;> cases fi <;>
        first
        | rfl
        | simp_all [PyVal.isNum]

/-- C2 witness: the amended statement evaluated on a fully numeric mapping
and on a mapping with a string-valued zcr_mean. -/
theorem C2_witness :
    analyze_voice
      { spectral_flatness := PyVal.num 1, pitch_std := PyVal.num 2,
        zcr_mean := PyVal.num 3 } =
      Except.ok (analyzeFused (computeSignalAcousticFallback 1)
        (computeSignalTemporal 2) (computeSignalImperfection 3)) ∧
    analyze_voice
      { spectral_flatness := PyVal.num 0, pitch_std := PyVal.num 0,
        zcr_mean := PyVal.str "many" } = Except.error "TypeError" :=
  ⟨(C2_theorem _).1 1 2 3 rfl, (C2_theorem _).2 (Or.inr (Or.inr rfl))⟩

/-! ## C6: the post-trim minimum-duration floor -/

/-- C6 counterexample: a blob sent through the base64 path that decodes to
a single sample (far below the 8000-sample half-second floor, with or
without trimming) is analyzed to a successful verdict: the base64 branch of
the endpoint calls librosa.load directly and never trims or checks the
duration, so no ingestion error is raised. -/
theorem C6_counterexample :
    shortBase64Blob.decodeResult = some [0] ∧
    2 * [(0 : ℚ)].length < TARGET_SAMPLE_RATE ∧
    (analyze_audio_endpoint constOracle
      { audio_base64 := some shortBase64Blob, audio_url := none }).isOk = true :=
  ⟨rfl, by norm_num [TARGET_SAMPLE_RATE], rfl⟩

/-- Helper: the loader rejects every blob whose trimmed sample list is
below the half-second floor, whatever the size and decode outcome. -/
theorem download_short_error (b : AudioBytes)
    (h : 2 * b.trimResult.length < TARGET_SAMPLE_RATE) :
    ∃ e0, download_and_load_audio b = Except.error e0 := by
  unfold download_and_load_audio load_audio_from_path
  split_ifs with h1
  · exact ⟨LoadError.tooLarge, rfl⟩
  · cases hd : b.decodeResult with
    | none => exact ⟨LoadError.corrupted, rfl⟩
    | some y =>
      by_cases hy : y.length = 0
      · exact ⟨LoadError.empty, by simp [hy]⟩
      · exact ⟨LoadError.tooShort, by simp [hy]⟩

/-- C6 amended: only the URL ingestion path enforces the floor: every URL
request whose blob trims to fewer than 0.5 seconds of samples at the target
rate is answered with an error and never a verdict, while the base64 path
performs no trimming or duration check at all and can return a verdict for
arbitrarily short audio. -/
theorem C6_theorem (L : LibrosaOracle) (b : AudioBytes)
    (h : 2 * b.trimResult.length < TARGET_SAMPLE_RATE) :
    ∃ e, analyze_audio_endpoint L { audio_base64 := none, audio_url := some b } =
      Except.error e := by
  obtain ⟨e0, he0⟩ := download_short_error b h
  refine ⟨ApiFailure.badAudio e0, ?_⟩
  have hmain : analyze_audio_endpoint L { audio_base64 := none, audio_url := some b } =
      (match download_and_load_audio b with
       | Except.error e => Except.error (ApiFailure.badAudio e)
       | Except.ok (y, _) =>
           Except.ok (analyzeVoiceOnFeatures (extract_features L.npStd (L.frames y)))) := rfl
  rw [hmain, he0]

/-- C6 witness: the amended statement evaluated on a concrete URL blob that
trims to the empty sample list. -/
theorem C6_witness :
    ∃ e, analyze_audio_endpoint constOracle
      { audio_base64 := none,
        audio_url := some { size := 100, decodeResult := some [0], trimResult := [] } } =
      Except.error e :=
  C6_theorem constOracle { size := 100, decodeResult := some [0], trimResult := [] }
    (by norm_num [TARGET_SAMPLE_RATE])

/-! ## C7: the byte-size ceiling -/

/-- C7 counterexample: a base64-supplied blob one byte above the 10 MB
ceiling is not rejected: the base64 branch performs no size check, decodes
the bytes, and the endpoint returns a successful verdict; moreover the
outcome depends on the decode result (a failing decode gives the
invalid-base64 error instead), so the decode is attempted. -/
theorem C7_counterexample :
    bigBase64Blob.size > MAX_FILE_SIZE_BYTES ∧
    (analyze_audio_endpoint constOracle
      { audio_base64 := some bigBase64Blob, audio_url := none }).isOk = true ∧
    analyze_audio_endpoint constOracle
      { audio_base64 := some bigCorruptBlob, audio_url := none } =
      Except.error ApiFailure.invalidBase64 :=
  ⟨by norm_num [bigBase64Blob, MAX_FILE_SIZE_BYTES], rfl, rfl⟩

/-- C7 amended: only the URL ingestion path enforces the ceiling before
decode: for every blob above MAX_FILE_SIZE_BYTES, download_and_load_audio
fails with the size error, and its result is independent of the decode and
trim outcomes, so no decode is consulted; the base64 path has no size check
at all. -/
theorem C7_theorem (n : ℕ) (d d₂ : Option (List ℚ)) (t t₂ : List ℚ)
    (h : MAX_FILE_SIZE_BYTES < n) :
    download_and_load_audio { size := n, decodeResult := d, trimResult := t } =
      Except.error LoadError.tooLarge ∧
    download_and_load_audio { size := n, decodeResult := d, trimResult := t } =
      download_and_load_audio { size := n, decodeResult := d₂, trimResult := t₂ } := by
  constructor <;> simp [download_and_load_audio, h]

/-- C7 witness: the amended statement at a concrete oversized size with two
different decode outcomes. -/
theorem C7_witness :
    download_and_load_audio
      { size := MAX_FILE_SIZE_BYTES + 1, decodeResult := some [0], trimResult := [] } =
      Except.error LoadError.tooLarge ∧
    download_and_load_audio
      { size := MAX_FILE_SIZE_BYTES + 1, decodeResult := some [0], trimResult := [] } =
      download_and_load_audio
        { size := MAX_FILE_SIZE_BYTES + 1, decodeResult := none, trimResult := [] } :=
  C7_theorem (MAX_FILE_SIZE_BYTES + 1) (some [0]) none [] []
    (Nat.lt_succ_self _)

/-! ## C9: schema stability of the extracted feature vector -/

/-- C9 confirmed: for every input and every standard-deviation kernel the
extracted feature dictionary has exactly the fixed keys in the fixed
insertion order; with the 13-coefficient mfcc matrix the mean and std
vectors have 13 entries; and when no voiced pitch frame exists the three
pitch fields are present with value 0.0 (the extractor returns normally in
that case, it is not an error). -/
theorem C9_theorem (npStd : List ℚ → ℚ) (d : FrameData) :
    ((extract_features npStd d).map Prod.fst =
      ["mfcc_mean", "mfcc_std", "spectral_flatness", "pitch_mean", "pitch_std",
       "pitch_range", "zcr_mean", "zcr_std", "energy_mean"]) ∧
    (d.mfcc.length = 13 →
      (extract_features npStd d).lookup "mfcc_mean" =
        some (FeatVal.vec (d.mfcc.map listMean)) ∧
      (d.mfcc.map listMean).length = 13 ∧
      (extract_features npStd d).lookup "mfcc_std" =
        some (FeatVal.vec (d.mfcc.map npStd)) ∧
      (d.mfcc.map npStd).length = 13) ∧
    (d.f0.filterMap id = [] →
      (extract_features npStd d).lookup "pitch_mean" = some (FeatVal.scalar 0) ∧
      (extract_features npStd d).lookup "pitch_std" = some (FeatVal.scalar 0) ∧
      (extract_features npStd d).lookup "pitch_range" = some (FeatVal.scalar 0)) := by
  refine ⟨rfl, ?_, ?_⟩
  · intro h13
    refine ⟨rfl, by simp [h13], rfl, by simp [h13]⟩
  · intro h0
    refine ⟨?_, ?_, ?_⟩ <;>
    · simp only [extract_features, h0]
      rfl

/-- C9 witness: the statement evaluated on a concrete FrameData with 13
mfcc rows and one unvoiced pitch frame. -/
theorem C9_witness :
    (extract_features (fun _ => 0) noPitchFrameData).lookup "pitch_mean" =
      some (FeatVal.scalar 0) ∧
    (noPitchFrameData.mfcc.map listMean).length = 13 :=
  ⟨((C9_theorem (fun _ => 0) noPitchFrameData).2.2 (by simp [noPitchFrameData])).1,
   ((C9_theorem (fun _ => 0) noPitchFrameData).2.1 (by simp [noPitchFrameData])).2.1⟩

end VoiceGuard
